import Mathlib

/-!
Verification of the SoundCloud terminal player core (`sctp.py`) against its
specification. The Python source is embedded shallowly: pure helpers become
Lean functions, Python exceptions become `Option`/`Except`, and the stateful
application objects (`SoundCloudScraper`'s `lru_cache`, `AudioPlayer`, the
`SCTP` app and its worker) become explicit state-passing functions. The
external collaborators (the VLC engine, the Textual worker framework) are
modelled by their documented semantics, which the spec itself takes as given.
-/

namespace Sctp

/-! ## Python string primitives

Models of the Python `str` operations used by the source: `str.split(sep)`,
`str.strip()`, and `int(s)`. `int` raising `ValueError` is modelled by
`Option`. -/

/-- Splits a character list on every occurrence of `c`, like Python
`str.split` with an explicit separator: the empty string yields one empty
segment, adjacent separators yield empty segments. -/
def splitOnChar (c : Char) : List Char → List (List Char)
  | [] => [[]]
  | x :: xs =>
    let r := splitOnChar c xs
    if x = c then [] :: r
    else
      match r with
      | h :: t => (x :: h) :: t
      | [] => [[x]]

/-- Python `s.split(sep)` for a one-character separator. -/
def pySplit (sep : Char) (s : String) : List String :=
  (splitOnChar sep s.data).map (fun l => String.mk l)

/-- Python `s.strip()`: removes leading and trailing whitespace. -/
def pyStrip (s : String) : String :=
  String.mk (((s.data.dropWhile Char.isWhitespace).reverse.dropWhile
    Char.isWhitespace).reverse)

/-- The numeric value of a nonempty all-digit character list; `none` when the
list is empty or holds a non-digit. -/
def digitsVal (l : List Char) : Option Nat :=
  if l = [] then none
  else if l.all Char.isDigit then
    some (l.foldl (fun a c => a * 10 + (c.toNat - 48)) 0)
  else none

/-- Python `int(s)` restricted to the forms the source can meet: an optional
sign followed by decimal digits. A failing parse (Python `ValueError`) is
`none`. -/
def pyInt (s : String) : Option Int :=
  match s.data with
  | '-' :: rest => (digitsVal rest).map (fun n => -(n : Int))
  | '+' :: rest => (digitsVal rest).map (fun n => (n : Int))
  | l => (digitsVal l).map (fun n => (n : Int))

/-! ## Data model -/

/-- The `Track` dataclass of `sctp.py`. -/
structure Track where
  title : String
  artist : String
  duration : Int
  stream_url : String
  artwork_url : String
  id : String
deriving DecidableEq

/-! ## Duration parser

`SoundCloudScraper.parse_duration`:
`parts = list(map(int, duration_str.split(":"))); return parts[0]*60 + parts[1]`.
A `ValueError` from `int` or an `IndexError` from `parts[1]` escapes the
function (modelled as `none`); inside `search` it is caught by the
surrounding `except`. -/

/-- `SoundCloudScraper.parse_duration`. Note it reads only `parts[0]` and
`parts[1]`, whatever the number of colon-separated segments. -/
def parse_duration (s : String) : Option Int := do
  let parts ← (pySplit ':' s).mapM pyInt
  match parts with
  | p0 :: p1 :: _ => some (p0 * 60 + p1)
  | _ => none

/-! ## Catalog client (SoundCloudScraper.search)

One result node of the response document, as the five pieces the source
reads from it. A `select_one` that finds nothing returns Python `None`, and
the subsequent `.text` / `["href"]` / `["src"]` access raises; every such
missing piece is an `Option.none` here. -/

structure ResultNode where
  title_text : Option String
  artist_text : Option String
  duration_text : Option String
  link_href : Option String
  img_src : Option String
deriving DecidableEq

/-- Extraction of one `Track` from one result node, following the body of the
`for` loop in `SoundCloudScraper.search` (lines 66-79): any missing field or
unparseable duration raises, which surfaces here as `none`. -/
def extractTrack (item : ResultNode) : Option Track := do
  let t ← item.title_text
  let a ← item.artist_text
  let dstr ← item.duration_text
  let d ← parse_duration dstr
  let href ← item.link_href
  let src ← item.img_src
  let track_id := (pySplit '/' href).getLastD ""
  some
    { title := pyStrip t
      artist := pyStrip a
      duration := d
      stream_url := "https://api.soundcloud.com/tracks/" ++ track_id ++ "/stream"
      artwork_url := src
      id := track_id }

/-- The extraction loop of `search`: nodes are processed in document order and
the first raising node aborts the whole loop (the partial `tracks` list is
abandoned, control jumps to the `except` clause). -/
def scrapeNodes : List ResultNode → Option (List Track)
  | [] => some []
  | n :: ns =>
    match extractTrack n with
    | none => none
    | some t =>
      match scrapeNodes ns with
      | none => none
      | some ts => some (t :: ts)

/-- What `requests.get` can come back with: a raised exception (timeout,
connection error) or a response carrying an HTTP status code and the parsed
result nodes of its body. -/
inductive HttpResponse where
  | failure
  | response (status : Nat) (nodes : List ResultNode)
deriving DecidableEq

/-- The body of the `try` block of `SoundCloudScraper.search`: a raised
exception anywhere (network failure, `raise_for_status` on a 4xx/5xx status,
any failing node extraction) is an `Except.error`. -/
def searchTry (resp : HttpResponse) : Except String (List Track) :=
  match resp with
  | .failure => .error "network request failed"
  | .response status nodes =>
    if 400 ≤ status then .error "http error status"
    else
      match scrapeNodes nodes with
      | some tracks => .ok tracks
      | none => .error "extraction failed"

/-- `SoundCloudScraper.search` seen as a function of the remote response: the
`except Exception` clause turns every error into the empty list. -/
def search (resp : HttpResponse) : List Track :=
  match searchTry resp with
  | .ok ts => ts
  | .error _ => []

/-! ## Query cache (@lru_cache(maxsize=100) on search)

`functools.lru_cache` memoizes `search` per query: hits return the stored
list and refresh its recency; misses run the body, store the outcome (also
an empty list from a failed search) and evict the least recently used entry
beyond 100. The cache list is kept most-recent-first. -/

structure ClientState where
  cache : List (String × List Track)
  netCalls : Nat
deriving DecidableEq

/-- Lookup of a query in the memoization cache. -/
def cacheLookup : List (String × List Track) → String → Option (List Track)
  | [], _ => none
  | (k, v) :: rest, q => if k = q then some v else cacheLookup rest q

/-- Removes a query's entry, used to move a hit to the front. -/
def cacheRemove (c : List (String × List Track)) (q : String) :
    List (String × List Track) :=
  c.filter (fun kv => kv.1 != q)

/-- `SoundCloudScraper.search` as called through its `lru_cache` wrapper:
`net` is the remote service (query to HTTP response), `netCalls` counts the
`requests.get` calls actually issued. -/
def searchCached (net : String → HttpResponse) (st : ClientState) (q : String) :
    List Track × ClientState :=
  match cacheLookup st.cache q with
  | some ts => (ts, { st with cache := (q, ts) :: cacheRemove st.cache q })
  | none =>
    let ts := search (net q)
    (ts, { cache := (q, ts) :: st.cache.take 99, netCalls := st.netCalls + 1 })

/-! ## Audio player (AudioPlayer over the VLC engine)

`AudioPlayer` owns one `vlc.MediaPlayer`, the external audio engine. The
engine is modelled by its documented semantics: it holds at most one media
handle, `set_media` replaces the handle and stops any current playback,
`play` starts the loaded media, `pause` toggles between playing and paused
and has no effect otherwise, `stop` halts output. -/

inductive EngineStatus where
  | idle
  | playing
  | paused
  | stopped
deriving DecidableEq

structure Engine where
  media : Option String
  status : EngineStatus
deriving DecidableEq

/-- `player.set_media(media)`: replaces the media handle, implicitly stopping
whatever was playing. -/
def Engine.set_media (_e : Engine) (url : String) : Engine :=
  { media := some url, status := .stopped }

/-- `player.play()`: starts the loaded media; nothing to do without media. -/
def Engine.play (e : Engine) : Engine :=
  match e.media with
  | some _ => { e with status := .playing }
  | none => e

/-- `player.pause()`: VLC toggle pause — playing becomes paused, paused
resumes playing, and in any other state the call has no effect. -/
def Engine.pause (e : Engine) : Engine :=
  match e.status with
  | .playing => { e with status := .paused }
  | .paused => { e with status := .playing }
  | _ => e

/-- `player.stop()`. -/
def Engine.stop (e : Engine) : Engine :=
  { e with status := .stopped }

/-- The `AudioPlayer` class: the engine plus the `current_track` slot. -/
structure AudioPlayer where
  engine : Engine
  current_track : Option Track
deriving DecidableEq

/-- `AudioPlayer.play` (lines 102-107): builds the media from the track's
stream URL, sets it on the single player, starts playback, records the
track. -/
def AudioPlayer.play (p : AudioPlayer) (track : Track) : AudioPlayer :=
  { engine := (p.engine.set_media track.stream_url).play
    current_track := some track }

/-- `AudioPlayer.toggle_pause` (lines 109-111): delegates to the engine's
toggle. -/
def AudioPlayer.toggle_pause (p : AudioPlayer) : AudioPlayer :=
  { p with engine := p.engine.pause }

/-- `AudioPlayer.stop`. -/
def AudioPlayer.stop (p : AudioPlayer) : AudioPlayer :=
  { p with engine := p.engine.stop }

/-! ## Session controller (the SCTP app) -/

/-- The mutable state of the `SCTP` app: the scraper's cache, the
`current_tracks` field, the `ListView` contents (the displayed list), the
`selected_track` field, the player, the artwork widget's URL, and a count of
search worker tasks started (each `search_tracks` call starts one). -/
structure AppState where
  client : ClientState
  current_tracks : List Track
  listView : List Track
  selected_track : Option Track
  player : AudioPlayer
  artworkUrl : String
  startedSearches : Nat
deriving DecidableEq

/-- The item carried by a `ListView.Selected` event: either a `TrackWidget`
holding the `Track` captured at widget construction, or some other list
item. -/
inductive SelectedItem where
  | trackWidget (t : Track)
  | otherItem
deriving DecidableEq

/-- `SCTP.play_selected_track` (lines 197-201): if a track is selected, play
it and update the artwork. -/
def play_selected_track (st : AppState) : AppState :=
  match st.selected_track with
  | some t => { st with player := st.player.play t, artworkUrl := t.artwork_url }
  | none => st

/-- `SCTP.handle_track_select` (lines 190-195): guarded only by
`isinstance(event.item, TrackWidget)`; the carried track is stored as
`selected_track` and played. -/
def handle_track_select (st : AppState) (item : SelectedItem) : AppState :=
  match item with
  | .trackWidget t => play_selected_track { st with selected_track := some t }
  | .otherItem => st

/-- `SCTP.action_play_pause` (lines 230-232): delegates to the player's
toggle. -/
def action_play_pause (st : AppState) : AppState :=
  { st with player := st.player.toggle_pause }

/-- `SCTP.handle_search` (lines 182-188): reads the input value and starts a
`search_tracks` worker only when the query is truthy, i.e. nonempty. The
worker itself runs asynchronously; here only its spawning is recorded. -/
def handle_search (st : AppState) (query : String) : AppState :=
  if query = "" then st
  else { st with startedSearches := st.startedSearches + 1 }

/-- The body of the `search_tracks` worker (lines 204-213) with the value the
`worker.is_cancelled` check reads at its single checkpoint: the (cached)
search always runs first, then the results are applied to `current_tracks`
and the displayed list only if the worker was not cancelled. -/
def search_tracks_worker (net : String → HttpResponse) (st : AppState)
    (query : String) (cancelledAtCheck : Bool) : AppState :=
  let res := searchCached net st.client query
  if cancelledAtCheck then { st with client := res.2 }
  else { st with client := res.2, current_tracks := res.1, listView := res.1 }

/-! ## Search task lifecycle (@work(exclusive=True))

The Textual worker framework, as the spec's concurrency model describes it:
`search_tracks` is an exclusive worker, so starting a new search task
cancels any task still in flight; a task applies its result only if its
cancellation flag is unset at the checkpoint. Tasks are identified by the
order they were started in. -/

structure SessionTasks where
  nextId : Nat
  inFlight : Option (Nat × String)
  cancelledIds : List Nat
  applied : Option (Nat × List Track)
deriving DecidableEq

/-- The two events of the search task lifecycle: the UI starts a new search
(cancelling the in-flight one, if any), or a task reaches its checkpoint
with its result and applies it unless cancelled. -/
inductive SessionEv where
  | startSearch (q : String)
  | completeSearch (id : Nat) (ts : List Track)

/-- One step of the task lifecycle. -/
def sessionStep (s : SessionTasks) : SessionEv → SessionTasks
  | .startSearch q =>
    { nextId := s.nextId + 1
      inFlight := some (s.nextId, q)
      cancelledIds :=
        (match s.inFlight with
         | some p => [p.1]
         | none => []) ++ s.cancelledIds
      applied := s.applied }
  | .completeSearch i ts =>
    let fl := if s.inFlight.map Prod.fst = some i then none else s.inFlight
    if i ∈ s.cancelledIds then { s with inFlight := fl }
    else { s with inFlight := fl, applied := some (i, ts) }

/-- Runs a list of lifecycle events. -/
def sessionRun (s : SessionTasks) : List SessionEv → SessionTasks
  | [] => s
  | e :: es => sessionRun (sessionStep s e) es

/-- The task whose result the displayed list currently shows. -/
def appliedId (s : SessionTasks) : Option Nat :=
  s.applied.map Prod.fst

/-! ## Concrete fixtures -/

/-- A fully extractable result node. -/
def nodeA : ResultNode :=
  ⟨some "Song A", some "Artist A", some "3:45", some "/artista/song-a",
    some "https://img/a.png"⟩

/-- A second fully extractable result node. -/
def nodeB : ResultNode :=
  ⟨some "Song B", some "Artist B", some "4:01", some "/artistb/song-b",
    some "https://img/b.png"⟩

/-- A third fully extractable result node. -/
def nodeC : ResultNode :=
  ⟨some "Song C", some "Artist C", some "0:59", some "/artistc/song-c",
    some "https://img/c.png"⟩

/-- A node whose duration text does not parse as a clock string. -/
def nodeBadDuration : ResultNode :=
  ⟨some "Song D", some "Artist D", some "4m20s", some "/artistd/song-d",
    some "https://img/d.png"⟩

/-- A node whose title element is missing. -/
def nodeNoTitle : ResultNode :=
  ⟨none, some "Artist E", some "2:00", some "/artiste/song-e",
    some "https://img/e.png"⟩

/-- A concrete track, matching what `extractTrack nodeA` yields. -/
def trackA : Track :=
  ⟨"Song A", "Artist A", 225, "https://api.soundcloud.com/tracks/song-a/stream",
    "https://img/a.png", "song-a"⟩

/-- A remote service that always raises on `requests.get`. -/
def netFail : String → HttpResponse := fun _ => .failure

/-- A remote service that answers every query with one valid node. -/
def netOne : String → HttpResponse := fun _ => .response 200 [nodeA]

/-- A fresh scraper cache: nothing memoized, no requests issued. -/
def emptyClient : ClientState := ⟨[], 0⟩

/-- A freshly constructed `AudioPlayer`: no media, nothing played yet. -/
def player0 : AudioPlayer := ⟨⟨none, .idle⟩, none⟩

/-- The app state right after startup: empty cache, no tracks, no
selection. -/
def st0 : AppState := ⟨emptyClient, [], [], none, player0, "", 0⟩

/-! ## Helper lemmas -/

/-- If some node of the list fails extraction, the whole extraction loop
comes back empty-handed. -/
lemma scrapeNodes_eq_none {nodes : List ResultNode}
    (h : ∃ n ∈ nodes, extractTrack n = none) : scrapeNodes nodes = none := by
  induction nodes with
  | nil =>
    rcases h with ⟨n, hn, _⟩
    exact absurd hn (List.not_mem_nil n)
  | cons x xs ih =>
    rcases h with ⟨n, hn, hnone⟩
    rcases List.mem_cons.mp hn with rfl | hmem
    · simp [scrapeNodes, hnone]
    · have hxs := ih ⟨n, hmem, hnone⟩
      cases hx : extractTrack x <;> simp [scrapeNodes, hx, hxs]

/-! ## Claims -/

/-- C1 counterexample: a mocked document with three valid nodes and one
malformed-duration node. Each of the three valid nodes extracts on its own
and the fourth fails, yet `search` returns the empty sequence — not the
three valid tracks the claim promises — because the single `try/except`
wraps the whole loop. -/
theorem search_malformed_node_counterexample :
    (extractTrack nodeA).isSome = true ∧
    (extractTrack nodeB).isSome = true ∧
    (extractTrack nodeC).isSome = true ∧
    extractTrack nodeBadDuration = none ∧
    search (.response 200 [nodeA, nodeB, nodeC, nodeBadDuration]) = [] ∧
    (search (.response 200 [nodeA, nodeB, nodeC, nodeBadDuration])).length ≠ 3 := by
  decide

/-- C1 amended: a node missing a required field is fatal to the whole
extraction — `search` returns the empty sequence, discarding even the tracks
extracted before the defective node; only when every node extracts does
`search` return all extracted tracks in document order. -/
theorem search_defective_node_aborts (status : Nat) (nodes : List ResultNode)
    (hok : status < 400) :
    ((∃ n ∈ nodes, extractTrack n = none) →
      search (.response status nodes) = []) ∧
    (∀ ts, scrapeNodes nodes = some ts → search (.response status nodes) = ts) := by
  have hs : ¬ 400 ≤ status := by omega
  constructor
  · intro hex
    simp [search, searchTry, hs, scrapeNodes_eq_none hex]
  · intro ts hts
    simp [search, searchTry, hs, hts]

/-- C1 witness: the amended theorem applied to a one-node document whose
node has a malformed duration. -/
theorem search_defective_node_aborts_witness :
    200 < 400 ∧ search (.response 200 [nodeBadDuration]) = [] :=
  ⟨by decide,
    (search_defective_node_aborts 200 [nodeBadDuration] (by decide)).1
      ⟨nodeBadDuration, by decide, by decide⟩⟩

/-- C2 counterexample: `parse_duration "1:02:03"` is `62`, not the `3723` the
claim's formula gives for the three-part clock string — the source reads
only the first two segments. -/
theorem parse_duration_hms_counterexample :
    parse_duration "1:02:03" = some 62 ∧ parse_duration "1:02:03" ≠ some 3723 := by
  decide

/-- C2 amended: for every clock string whose colon-separated segments all
parse as integers and number at least two, `parse_duration` returns
`parts[0] * 60 + parts[1]` — the claimed formula for two-part `M:SS` strings
(so `"3:45"` gives `225`), but only the first two segments of a longer
string count (so `"1:02:03"` gives `62`, not `3723`). -/
theorem parse_duration_first_two_parts (s : String) (p0 p1 : Int)
    (rest : List Int) (h : (pySplit ':' s).mapM pyInt = some (p0 :: p1 :: rest)) :
    parse_duration s = some (p0 * 60 + p1) := by
  unfold parse_duration
  rw [h]
  rfl

/-- C2 witness: the amended theorem applied to `"3:45"`. -/
theorem parse_duration_first_two_parts_witness :
    (pySplit ':' "3:45").mapM pyInt = some [3, 45] ∧
    parse_duration "3:45" = some 225 := by
  refine ⟨by decide, ?_⟩
  have h := parse_duration_first_two_parts "3:45" 3 45 [] (by decide)
  simpa using h

/-- C4: a raised network request, a non-success HTTP status, and a failed
extraction all degrade to the empty sequence; `search` itself is a total
function of the response, so no exception ever escapes to the caller. -/
theorem search_degrades_to_empty (status : Nat) (nodes : List ResultNode) :
    search .failure = [] ∧
    (400 ≤ status → search (.response status nodes) = []) ∧
    (scrapeNodes nodes = none → search (.response status nodes) = []) := by
  refine ⟨rfl, ?_, ?_⟩
  · intro h
    simp [search, searchTry, h]
  · intro h
    by_cases hs : 400 ≤ status
    · simp [search, searchTry, hs]
    · simp [search, searchTry, hs, h]

/-- C4 witness: the theorem applied to an HTTP 500 response and to a
response whose only node is missing its title. -/
theorem search_degrades_to_empty_witness :
    ((400 : Nat) ≤ 500 ∧ search (.response 500 [nodeA]) = []) ∧
    (scrapeNodes [nodeNoTitle] = none ∧ search (.response 200 [nodeNoTitle]) = []) :=
  ⟨⟨by decide, (search_degrades_to_empty 500 [nodeA]).2.1 (by decide)⟩,
    ⟨by decide, (search_degrades_to_empty 200 [nodeNoTitle]).2.2 (by decide)⟩⟩

/-- C3 counterexample: a cancelled search leaves the track list alone, yet it
does modify the query cache — `lru_cache` memoizes inside `search`, before
the worker ever reads its cancellation flag — refuting the claim that a
cancelled task modifies neither the cache nor the displayed list. -/
theorem cancelled_search_populates_cache_counterexample :
    (search_tracks_worker netFail st0 "lofi" true).current_tracks
        = st0.current_tracks ∧
    (search_tracks_worker netFail st0 "lofi" true).listView = st0.listView ∧
    (search_tracks_worker netFail st0 "lofi" true).client.cache
        ≠ st0.client.cache ∧
    (search_tracks_worker netFail st0 "lofi" true).client.netCalls
        ≠ st0.client.netCalls := by
  decide

/-- C3 amended: a cancelled search task never touches `current_tracks`, the
displayed list, the selection or the player — but the query cache may still
be populated by it, because memoization happens inside `search` before the
cancellation check. -/
theorem cancelled_search_leaves_ui_unchanged (net : String → HttpResponse)
    (st : AppState) (query : String) :
    (search_tracks_worker net st query true).current_tracks = st.current_tracks ∧
    (search_tracks_worker net st query true).listView = st.listView ∧
    (search_tracks_worker net st query true).selected_track = st.selected_track ∧
    (search_tracks_worker net st query true).player = st.player := by
  refine ⟨rfl, rfl, rfl, rfl⟩

/-- C5: under the exclusive-worker policy, once search B is started while
search A is still in flight, no continuation of the run — including A's own
late completion — ever applies A's result to the displayed list. -/
theorem stale_search_never_applied (s : SessionTasks) (a : Nat) (qa qb : String)
    (hin : s.inFlight = some (a, qa)) (hap : appliedId s ≠ some a)
    (evs : List SessionEv) :
    appliedId (sessionRun (sessionStep s (.startSearch qb)) evs) ≠ some a := by
  have hstep :
      ∀ (t : SessionTasks) (e : SessionEv), a ∈ t.cancelledIds →
        a ∈ (sessionStep t e).cancelledIds ∧
        (appliedId t ≠ some a → appliedId (sessionStep t e) ≠ some a) := by
    intro t e hc
    cases e with
    | startSearch q =>
      constructor
      · cases hfl : t.inFlight <;> simp [sessionStep, hfl, hc]
      · intro hap2
        simpa [sessionStep, appliedId] using hap2
    | completeSearch i ts =>
      by_cases hi : i ∈ t.cancelledIds
      · constructor
        · simp [sessionStep, hi, hc]
        · intro hap2
          simpa [sessionStep, appliedId, hi] using hap2
      · constructor
        · simp [sessionStep, hi, hc]
        · intro _
          have hne : i ≠ a := fun hia => hi (hia ▸ hc)
          simp [sessionStep, appliedId, hi, hne]
  have hrun :
      ∀ (l : List SessionEv) (t : SessionTasks), a ∈ t.cancelledIds →
        appliedId t ≠ some a → appliedId (sessionRun t l) ≠ some a := by
    intro l
    induction l with
    | nil => intro t _ hap2; simpa [sessionRun] using hap2
    | cons e es ih =>
      intro t hc hap2
      have h1 := hstep t e hc
      exact ih (sessionStep t e) h1.1 (h1.2 hap2)
  apply hrun
  · simp [sessionStep, hin]
  · simpa [sessionStep, appliedId] using hap

/-- C5 witness: the theorem applied to a state where task 0 ("lofi") is in
flight, search "jazz" then starts, and task 0's result later arrives. -/
theorem stale_search_never_applied_witness :
    (⟨1, some (0, "lofi"), [], none⟩ : SessionTasks).inFlight = some (0, "lofi") ∧
    appliedId ⟨1, some (0, "lofi"), [], none⟩ ≠ some 0 ∧
    appliedId (sessionRun
      (sessionStep ⟨1, some (0, "lofi"), [], none⟩ (.startSearch "jazz"))
      [.completeSearch 0 [trackA]]) ≠ some 0 :=
  ⟨rfl, by decide,
    stale_search_never_applied ⟨1, some (0, "lofi"), [], none⟩ 0 "lofi" "jazz"
      rfl (by decide) [.completeSearch 0 [trackA]]⟩

/-- C6: from a state where the query is not yet memoized, the first search
issues exactly one network request, and repeating the same query performs no
further request and returns the very same sequence (Track values are
immutable in the model, as in the source nothing ever mutates them). -/
theorem search_cached_once (net : String → HttpResponse) (st : ClientState)
    (q : String) (h : cacheLookup st.cache q = none) :
    (searchCached net st q).2.netCalls = st.netCalls + 1 ∧
    (searchCached net (searchCached net st q).2 q).1 = (searchCached net st q).1 ∧
    (searchCached net (searchCached net st q).2 q).2.netCalls
        = (searchCached net st q).2.netCalls := by
  have h1 : searchCached net st q
      = (search (net q),
          ⟨(q, search (net q)) :: st.cache.take 99, st.netCalls + 1⟩) := by
    unfold searchCached
    rw [h]
  have h2 : searchCached net
      (⟨(q, search (net q)) :: st.cache.take 99, st.netCalls + 1⟩ : ClientState) q
      = (search (net q),
          ⟨(q, search (net q)) ::
            cacheRemove ((q, search (net q)) :: st.cache.take 99) q,
            st.netCalls + 1⟩) := by
    unfold searchCached
    simp [cacheLookup]
  refine ⟨by rw [h1], ?_, ?_⟩
  · rw [h1, h2]
  · rw [h1, h2]

/-- C6 witness: the theorem applied to a fresh cache and the query
"lofi" against a service answering with one valid node. -/
theorem search_cached_once_witness :
    cacheLookup emptyClient.cache "lofi" = none ∧
    (searchCached netOne emptyClient "lofi").2.netCalls
        = emptyClient.netCalls + 1 ∧
    (searchCached netOne (searchCached netOne emptyClient "lofi").2 "lofi").1
        = (searchCached netOne emptyClient "lofi").1 :=
  ⟨by decide, (search_cached_once netOne emptyClient "lofi" (by decide)).1,
    (search_cached_once netOne emptyClient "lofi" (by decide)).2.1⟩

/-- C7: after `load_and_play(trackX)` then `load_and_play(trackY)` the player
is playing with `current_track = trackY`; the single engine slot holds
exactly trackY's stream, and setting that media first puts the engine in the
stopped state — the previous track's playback is implicitly stopped before
the new one starts, so at most one track is ever active. -/
theorem load_and_play_replaces_track (p : AudioPlayer) (tx ty : Track) :
    ((p.play tx).play ty).current_track = some ty ∧
    ((p.play tx).play ty).engine.status = .playing ∧
    ((p.play tx).play ty).engine.media = some ty.stream_url ∧
    ((p.play tx).engine.set_media ty.stream_url).status = .stopped := by
  refine ⟨rfl, rfl, rfl, rfl⟩

/-- C8 counterexample: a selection event carrying a `TrackWidget` whose
track's id is absent from the displayed result set is not ignored — the
handler checks only the item's type, so the track is played and the player
state changes, refuting the claim. -/
theorem select_absent_track_counterexample :
    trackA.id ∉ st0.current_tracks.map Track.id ∧
    (handle_track_select st0 (.trackWidget trackA)).player.current_track
        ≠ st0.player.current_track ∧
    (handle_track_select st0 (.trackWidget trackA)).player.engine.status
        = .playing ∧
    (handle_track_select st0 (.trackWidget trackA)).artworkUrl
        = trackA.artwork_url := by
  decide

/-- C8 amended: `handle_track_select` ignores only events whose item is not a
`TrackWidget`; a `TrackWidget` selection stores and plays its carried track
and updates the artwork, with no membership check against the displayed
result set. -/
theorem handle_track_select_no_membership_check (st : AppState) (t : Track)
    (item : SelectedItem) :
    (item = .otherItem → handle_track_select st item = st) ∧
    (handle_track_select st (.trackWidget t)).selected_track = some t ∧
    (handle_track_select st (.trackWidget t)).player.current_track = some t ∧
    (handle_track_select st (.trackWidget t)).player.engine.status = .playing ∧
    (handle_track_select st (.trackWidget t)).artworkUrl = t.artwork_url := by
    refine ⟨?_, rfl, rfl, rfl, rfl⟩
    intro h
    subst h
    rfl

/-- C8 witness: the amended theorem applied to the startup state, a non-track
item and a concrete track. -/
theorem handle_track_select_no_membership_check_witness :
    (SelectedItem.otherItem = SelectedItem.otherItem) ∧
    handle_track_select st0 .otherItem = st0 ∧
    (handle_track_select st0 (.trackWidget trackA)).player.current_track
        = some trackA :=
  ⟨rfl, (handle_track_select_no_membership_check st0 trackA .otherItem).1 rfl,
    (handle_track_select_no_membership_check st0 trackA .otherItem).2.2.1⟩

/-- C9: `action_play_pause` (delegating to `AudioPlayer.toggle_pause`) with
the engine stopped or idle is a no-op — the whole app state is unchanged and
no exception is possible — while from playing it moves the engine to paused
and from paused back to playing, with `current_track` untouched. -/
theorem toggle_pause_state_machine (st : AppState) :
    ((st.player.engine.status = .stopped ∨ st.player.engine.status = .idle) →
      action_play_pause st = st) ∧
    (st.player.engine.status = .playing →
      (action_play_pause st).player.engine.status = .paused ∧
      (action_play_pause st).player.current_track = st.player.current_track) ∧
    (st.player.engine.status = .paused →
      (action_play_pause st).player.engine.status = .playing ∧
      (action_play_pause st).player.current_track = st.player.current_track) := by
  obtain ⟨cl, cts, lv, sel, ⟨⟨med, stat⟩, ct⟩, art, ss⟩ := st
  refine ⟨?_, ?_, ?_⟩
  · rintro (h | h) <;> · dsimp at h; subst h; rfl
  · intro h
    dsimp at h
    subst h
    exact ⟨rfl, rfl⟩
  · intro h
    dsimp at h
    subst h
    exact ⟨rfl, rfl⟩

/-- C9 witness: the theorem applied to a state whose player was stopped after
playing a track. -/
theorem toggle_pause_state_machine_witness :
    ((st0.player.play trackA).stop.engine.status = .stopped ∨
      (st0.player.play trackA).stop.engine.status = .idle) ∧
    action_play_pause { st0 with player := (st0.player.play trackA).stop }
      = { st0 with player := (st0.player.play trackA).stop } :=
  ⟨Or.inl rfl,
    (toggle_pause_state_machine
      { st0 with player := (st0.player.play trackA).stop }).1 (Or.inl rfl)⟩

/-- C10: submitting an empty query leaves the app state exactly as it was —
no worker task is started, so no network request, no cache read or write, no
change to the displayed list or the player — even though the catalog client
itself accepts the empty query and forwards it to the remote service (an
uncached empty-query search does issue a network request). -/
theorem empty_query_starts_no_search (st : AppState)
    (net : String → HttpResponse) (k : Nat) :
    handle_search st "" = st ∧
    (searchCached net ⟨[], k⟩ "").2.netCalls = k + 1 := by
  constructor
  · rfl
  · rfl

end Sctp
